import Mathlib

/-
Verification of the Notion progress-tracker batch script (src/main.py).

The script is a single-pass batch job: it queries a task database for
recently edited, unlinked tasks; extracts (year, week-text, month-text)
from each task's formula properties; resolves weekly and monthly summary
pages by an AND(title equals, year equals) query; and patches the task's
two relation properties.  The HTTP boundary is embedded as data: each
request the script would issue is a `Request` value, and each response it
would consume is a `QueryOutcome` / `PatchOutcome` value supplied by an
`Oracle`.  Pure response handling and payload construction are translated
directly from the source.
-/

namespace NotionTracker

/-- Property name constants (src/main.py lines 13–27). -/
def TASK_PROP_DUE_DATE : String := "Due Date"

/-- Title property of the task database (src/main.py line 14). -/
def TASK_PROP_TITLE : String := "Tasks"

/-- Weekly relation property of a task (src/main.py line 15). -/
def TASK_PROP_WEEKLY_LINK : String := "Weekly Link"

/-- Monthly relation property of a task (src/main.py line 16). -/
def TASK_PROP_MONTHLY_LINK : String := "Monthly Link"

/-- Week-number formula property of a task (src/main.py line 17). -/
def TASK_PROP_WEEK_NUMBER : String := "Week Number"

/-- Month formula property of a task (src/main.py line 18). -/
def TASK_PROP_MONTH : String := "Month"

/-- Year formula property of a task (src/main.py line 19). -/
def TASK_PROP_YEAR : String := "Year"

/-- Title property of the weekly database (src/main.py line 22). -/
def WEEKLY_DB_TITLE_PROP : String := "Week Number"

/-- Title property of the monthly database (src/main.py line 23). -/
def MONTHLY_DB_TITLE_PROP : String := "Month"

/-- Year property of the weekly database (src/main.py line 26). -/
def WEEKLY_DB_YEAR_PROP : String := "Year"

/-- Year property of the monthly database (src/main.py line 27). -/
def MONTHLY_DB_YEAR_PROP : String := "Year"

/-- A Notion formula result object, as navigated by the script:
`type` models `.get("type")`, `number` models the "number" key
(outer `none` = key absent, inner `none` = JSON null), and `string`
models the "string" key likewise. -/
structure FormulaObj where
  type : Option String := none
  number : Option (Option Int) := none
  string : Option (Option String) := none
deriving DecidableEq

/-- One element of a title property's rich-text array; `plain_text` is
`none` when the "plain_text" key is absent (indexing it raises KeyError). -/
structure TitleItem where
  plain_text : Option String := none
deriving DecidableEq

/-- A task property value, restricted to the keys the script reads:
`formula` models `.get("formula")` and `title` models `.get("title")`. -/
structure PropertyValue where
  formula : Option FormulaObj := none
  title : Option (List TitleItem) := none
deriving DecidableEq

/-- Default used for `task_properties.get(name, \x7b\x7d)` on a missing key. -/
def emptyPropertyValue : PropertyValue := {}

/-- Default used for `.get("formula", \x7b\x7d)` on a missing key. -/
def emptyFormulaObj : FormulaObj := {}

/-- A task record as returned by the discovery query: its id and its
properties dictionary. -/
structure Task where
  id : String
  properties : List (String × PropertyValue)
deriving DecidableEq

/-- Embeds `task_properties.get(name, \x7b\x7d).get("formula", \x7b\x7d)`
(src/main.py lines 98, 106, 113). -/
def get_formula (props : List (String × PropertyValue)) (name : String) : FormulaObj :=
  ((props.lookup name).getD emptyPropertyValue).formula.getD emptyFormulaObj

/-- Embeds `int(year_prop.get("number", 0))` (src/main.py line 100): a missing
"number" key defaults to 0; a JSON-null value makes `int(None)` raise
TypeError, which the surrounding handler turns into the failure triple. -/
def int_of_number_get : Option (Option Int) → Option Int
  | none => some 0
  | some none => none
  | some (some n) => some n

/-- Year branch of `extract_task_properties` (src/main.py lines 97–103):
succeeds only when the declared formula type is "number". -/
def extract_year (props : List (String × PropertyValue)) : Option Int :=
  let year_prop := get_formula props TASK_PROP_YEAR
  if year_prop.type == some "number" then int_of_number_get year_prop.number
  else none

/-- Week branch of `extract_task_properties` (src/main.py lines 105–110):
`week_prop.get("string")` followed by the `if not week_text` emptiness check.
Only a textual formula result is accepted. -/
def extract_week (props : List (String × PropertyValue)) : Option String :=
  match (get_formula props TASK_PROP_WEEK_NUMBER).string.join with
  | some w => if w.isEmpty then none else some w
  | none => none

/-- Month branch of `extract_task_properties` (src/main.py lines 112–117):
same shape as the week branch. -/
def extract_month (props : List (String × PropertyValue)) : Option String :=
  match (get_formula props TASK_PROP_MONTH).string.join with
  | some m => if m.isEmpty then none else some m
  | none => none

/-- Embeds `extract_task_properties` (src/main.py lines 91–123): returns
`(year, week_text, month_text)` or the `(None, None, None)` failure triple.
Each branch's early `return None, None, None` is the corresponding `none`
case here; the only statement that can raise inside the `try` is
`int(...)`, which `int_of_number_get` already folds into the year branch. -/
def extract_task_properties (props : List (String × PropertyValue)) :
    Option Int × Option String × Option String :=
  match extract_year props with
  | none => (none, none, none)
  | some year =>
    match extract_week props with
    | none => (none, none, none)
    | some week_text =>
      match extract_month props with
      | none => (none, none, none)
      | some month_text => (some year, some week_text, some month_text)

/-- Python truthiness of the extracted year (`all([year, ...])`,
src/main.py line 291): `None` and `0` are falsy. -/
def truthyInt : Option Int → Bool
  | none => false
  | some n => n != 0

/-- Python truthiness of an extracted text (`all([..., week_text, ...])`):
`None` and `""` are falsy. -/
def truthyStr : Option String → Bool
  | none => false
  | some t => !t.isEmpty

/-- Embeds `all([year, week_text, month_text])` (src/main.py line 291). -/
def truthyTriple : Option Int × Option String × Option String → Bool
  | (y, w, m) => truthyInt y && truthyStr w && truthyStr m

/-- Embeds the title read of the per-task loop (src/main.py lines 283–286):
a missing or empty title array falls back to "Untitled Task"; a first item
without a "plain_text" key raises KeyError, caught by the per-task handler. -/
def read_title (props : List (String × PropertyValue)) : Except Unit String :=
  match ((props.lookup TASK_PROP_TITLE).getD emptyPropertyValue).title with
  | some (item :: _) =>
    match item.plain_text with
    | some s => Except.ok s
    | none => Except.error ()
  | _ => Except.ok "Untitled Task"

/-- The JSON filter tree shapes the script sends to the query endpoints
(src/main.py lines 57–74, 140–153, 191–204). -/
inductive NotionFilter where
  | dateIsNotEmpty (prop : String)
  | relationIsEmpty (prop : String)
  | lastEditedOnOrAfter (cutoffMinutes : Int)
  | titleEquals (prop : String) (value : String)
  | numberEquals (prop : String) (value : Int)
  | and (clauses : List NotionFilter)

/-- Embeds the 65-minute cut-off computation (src/main.py line 53), with
time measured in minutes. -/
def cut_off_time (nowMinutes : Int) : Int := nowMinutes - 65

/-- The discovery filter payload (src/main.py lines 57–74). -/
def unlinked_tasks_filter (nowMinutes : Int) : NotionFilter :=
  NotionFilter.and
    [NotionFilter.dateIsNotEmpty TASK_PROP_DUE_DATE,
     NotionFilter.relationIsEmpty TASK_PROP_WEEKLY_LINK,
     NotionFilter.lastEditedOnOrAfter (cut_off_time nowMinutes)]

/-- The weekly resolver filter payload (src/main.py lines 140–153). -/
def weekly_query_filter (week_text : String) (year : Int) : NotionFilter :=
  NotionFilter.and
    [NotionFilter.titleEquals WEEKLY_DB_TITLE_PROP week_text,
     NotionFilter.numberEquals WEEKLY_DB_YEAR_PROP year]

/-- The monthly resolver filter payload (src/main.py lines 191–204). -/
def monthly_query_filter (month_text : String) (year : Int) : NotionFilter :=
  NotionFilter.and
    [NotionFilter.titleEquals MONTHLY_DB_TITLE_PROP month_text,
     NotionFilter.numberEquals MONTHLY_DB_YEAR_PROP year]

/-- Outcome of one HTTP query as the script observes it: a 200 response
with its parsed "results" list (a missing key is `ok []` via
`.get("results", [])`), a non-200 status, or a raised exception. -/
inductive QueryOutcome (α : Type) where
  | ok (results : List α)
  | httpError (status : Nat)
  | exn
deriving DecidableEq

/-- A page in a resolver query's "results" array; only its "id" is read. -/
structure ResultPage where
  id : String
deriving DecidableEq

/-- Response handling of `get_unlinked_tasks` (src/main.py lines 76–88):
non-200 and exceptions both return the empty list. -/
def get_unlinked_tasks (resp : QueryOutcome Task) : List Task :=
  match resp with
  | QueryOutcome.ok results => results
  | QueryOutcome.httpError _ => []
  | QueryOutcome.exn => []

/-- Response handling of `find_weekly_page_with_year`
(src/main.py lines 155–174): non-200 or exception gives `None`; a
non-empty results list gives the first result's id; empty gives `None`. -/
def find_weekly_page_with_year (week_text : String) (year : Int)
    (resp : QueryOutcome ResultPage) : Option String :=
  match resp with
  | QueryOutcome.ok [] => none
  | QueryOutcome.ok (r :: _) => some r.id
  | QueryOutcome.httpError _ => none
  | QueryOutcome.exn => none

/-- Response handling of `find_monthly_page_with_year`
(src/main.py lines 206–225), identical in shape to the weekly resolver. -/
def find_monthly_page_with_year (month_text : String) (year : Int)
    (resp : QueryOutcome ResultPage) : Option String :=
  match resp with
  | QueryOutcome.ok [] => none
  | QueryOutcome.ok (r :: _) => some r.id
  | QueryOutcome.httpError _ => none
  | QueryOutcome.exn => none

/-- The value written into a relation property:
`\x7b"relation": [\x7b"id": pid\x7d]\x7d` is `relation = [pid]`. -/
structure RelationValue where
  relation : List String
deriving DecidableEq

/-- One conditional insertion into `properties_to_update`
(src/main.py lines 236–243): Python's `if page_id:` keeps the entry only
for a non-None, non-empty id. -/
def relationEntry (prop : String) : Option String → List (String × RelationValue)
  | some s => if s.isEmpty then [] else [(prop, RelationValue.mk [s])]
  | none => []

/-- The `properties_to_update` dictionary of `update_task_relations`
(src/main.py lines 234–243), in insertion order. -/
def properties_to_update (weekly_page_id monthly_page_id : Option String) :
    List (String × RelationValue) :=
  relationEntry TASK_PROP_WEEKLY_LINK weekly_page_id ++
    relationEntry TASK_PROP_MONTHLY_LINK monthly_page_id

/-- Outcome of the PATCH request as the script observes it. -/
inductive PatchOutcome where
  | ok
  | httpError (status : Nat)
  | exn
deriving DecidableEq

/-- Per-task update result, mirroring the script's logged outcomes
(src/main.py lines 245–261). -/
inductive UpdateResult where
  | noUpdate
  | success
  | failed (status : Nat)
  | exnDuringUpdate
deriving DecidableEq

/-- Every HTTP request the script can issue: the three collection queries
(POST, pure reads) and the single-page PATCH (src/main.py lines 55, 78,
137, 156, 188, 207, 232, 253).  The script issues no record-creation and
no record-deletion request; this type enumerates all of its calls. -/
inductive Request where
  | queryTasks (filter : NotionFilter)
  | queryWeekly (filter : NotionFilter)
  | queryMonthly (filter : NotionFilter)
  | patchTask (task_id : String) (properties : List (String × RelationValue))

/-- Embeds `update_task_relations` (src/main.py lines 228–261): returns the
requests it issues (none or one PATCH) and the logged result.  An empty
`properties_to_update` issues no request at all (lines 245–247). -/
def update_task_relations (task_id : String)
    (weekly_page_id monthly_page_id : Option String)
    (resp : PatchOutcome) : List Request × UpdateResult :=
  let props := properties_to_update weekly_page_id monthly_page_id
  if props.isEmpty then ([], UpdateResult.noUpdate)
  else
    ([Request.patchTask task_id props],
     match resp with
     | PatchOutcome.ok => UpdateResult.success
     | PatchOutcome.httpError s => UpdateResult.failed s
     | PatchOutcome.exn => UpdateResult.exnDuringUpdate)

/-- The environment's responses: what each query or patch would return.
Responses are a function of the request parameters, standing for the
external record store. -/
structure Oracle where
  weekly : String → Int → QueryOutcome ResultPage
  monthly : String → Int → QueryOutcome ResultPage
  patch : String → List (String × RelationValue) → PatchOutcome

/-- Terminal state of one task's processing (spec section 4.5). -/
inductive Outcome where
  | skippedPropError
  | skippedMissingProps
  | linked (weekly monthly : Option String) (update : UpdateResult)
deriving DecidableEq

/-- The resolve-and-write tail of the per-task loop
(src/main.py lines 299–309): weekly resolver, monthly resolver, then
`update_task_relations`, in that order. -/
def linkStep (o : Oracle) (task : Task) (year : Int)
    (week_text month_text : String) : Outcome × List Request :=
  let weekly_page_id := find_weekly_page_with_year week_text year (o.weekly week_text year)
  let monthly_page_id := find_monthly_page_with_year month_text year (o.monthly month_text year)
  let upd := update_task_relations task.id weekly_page_id monthly_page_id
    (o.patch task.id (properties_to_update weekly_page_id monthly_page_id))
  (Outcome.linked weekly_page_id monthly_page_id upd.2,
   Request.queryWeekly (weekly_query_filter week_text year) ::
     Request.queryMonthly (monthly_query_filter month_text year) :: upd.1)

/-- One iteration of the batch loop of `main` (src/main.py lines 277–309):
title read (whose KeyError is caught and skips the task), extraction, the
`if not all([...])` skip, then the resolve-and-write tail. -/
def processTask (o : Oracle) (task : Task) : Outcome × List Request :=
  match read_title task.properties with
  | Except.error _ => (Outcome.skippedPropError, [])
  | Except.ok _ =>
    match extract_task_properties task.properties with
    | (some year, some week_text, some month_text) =>
      if truthyTriple (some year, some week_text, some month_text) then
        linkStep o task year week_text month_text
      else (Outcome.skippedMissingProps, [])
    | _ => (Outcome.skippedMissingProps, [])

/-- The per-task outcomes of the batch loop over a task list. -/
def main_outcomes (o : Oracle) (tasks : List Task) : List Outcome :=
  tasks.map (fun t => (processTask o t).1)

/-- Embeds `main` (src/main.py lines 264–309) over its one discovery
response: the discovery request, then each task's requests in loop order,
together with the per-task outcomes. -/
def main_batch (nowMinutes : Int) (o : Oracle) (discResp : QueryOutcome Task) :
    List Outcome × List Request :=
  let tasks := get_unlinked_tasks discResp
  (main_outcomes o tasks,
   Request.queryTasks (unlinked_tasks_filter nowMinutes) ::
     (tasks.map (fun t => (processTask o t).2)).flatten)

/-- A record of the weekly or monthly reference collection: identifier,
title text, and year number (spec section 3). -/
structure RefRecord where
  id : String
  title : String
  year : Int
deriving DecidableEq

mutual

/-- Modelled from the spec: the external record store (not part of src/)
evaluates a query filter against a reference record with exact string
equality on the named title property, exact numeric equality on the named
year property, and AND-composition; no other predicate shape matches a
reference record. -/
def refRecordMatches (titleProp yearProp : String) (r : RefRecord) :
    NotionFilter → Bool
  | NotionFilter.titleEquals p v => p == titleProp && r.title == v
  | NotionFilter.numberEquals p v => p == yearProp && r.year == v
  | NotionFilter.and cs => refRecordMatchesAll titleProp yearProp r cs
  | _ => false

/-- Modelled from the spec: conjunction of an AND-filter's clauses. -/
def refRecordMatchesAll (titleProp yearProp : String) (r : RefRecord) :
    List NotionFilter → Bool
  | [] => true
  | c :: cs =>
    refRecordMatches titleProp yearProp r c &&
      refRecordMatchesAll titleProp yearProp r cs

end

/-- Modelled from the spec: the store returns the records matching the
filter, in collection order. -/
def run_ref_query (titleProp yearProp : String) (db : List RefRecord)
    (f : NotionFilter) : List RefRecord :=
  db.filter (fun r => refRecordMatches titleProp yearProp r f)

/-- View of a reference record as a query-result page. -/
def RefRecord.toPage (r : RefRecord) : ResultPage := ResultPage.mk r.id

/-- The weekly resolver composed with the modelled store: the script's
filter payload evaluated by the store, fed to the script's response
handling. -/
def resolve_weekly_in (db : List RefRecord) (week_text : String) (year : Int) :
    Option String :=
  find_weekly_page_with_year week_text year
    (QueryOutcome.ok
      ((run_ref_query WEEKLY_DB_TITLE_PROP WEEKLY_DB_YEAR_PROP db
          (weekly_query_filter week_text year)).map RefRecord.toPage))

/-- The monthly resolver composed with the modelled store. -/
def resolve_monthly_in (db : List RefRecord) (month_text : String) (year : Int) :
    Option String :=
  find_monthly_page_with_year month_text year
    (QueryOutcome.ok
      ((run_ref_query MONTHLY_DB_TITLE_PROP MONTHLY_DB_YEAR_PROP db
          (monthly_query_filter month_text year)).map RefRecord.toPage))

/-- Modelled from the spec: the record store applies a PATCH by replacing
exactly the named properties of the record, leaving every other property
as it was (spec section 6, partial update). -/
def apply_update (props : List (String × RelationValue))
    (record : String → Option RelationValue) : String → Option RelationValue :=
  fun name =>
    match props.lookup name with
    | some v => some v
    | none => record name

/-- A property value holding a number-typed formula result. -/
def numberFormula (n : Int) : PropertyValue :=
  { formula := some { type := some "number", number := some (some n) } }

/-- A property value holding a string-typed formula result. -/
def stringFormula (s : String) : PropertyValue :=
  { formula := some { type := some "string", string := some (some s) } }

/-- Fixture: a well-formed task property dictionary (year 2025, textual
week "41", month "October"). -/
def good_props : List (String × PropertyValue) :=
  [(TASK_PROP_YEAR, numberFormula 2025),
   (TASK_PROP_WEEK_NUMBER, stringFormula "41"),
   (TASK_PROP_MONTH, stringFormula "October")]

/-- Fixture: same task but the week-number formula result is the number 41
rather than the text "41". -/
def numeric_week_props : List (String × PropertyValue) :=
  [(TASK_PROP_YEAR, numberFormula 2025),
   (TASK_PROP_WEEK_NUMBER, numberFormula 41),
   (TASK_PROP_MONTH, stringFormula "October")]

/-- Fixture: well-formed task whose year formula evaluates to 0. -/
def year_zero_props : List (String × PropertyValue) :=
  [(TASK_PROP_YEAR, numberFormula 0),
   (TASK_PROP_WEEK_NUMBER, stringFormula "41"),
   (TASK_PROP_MONTH, stringFormula "October")]

/-- Fixture: task whose year formula has declared type "string". -/
def year_string_props : List (String × PropertyValue) :=
  [(TASK_PROP_YEAR, stringFormula "2025"),
   (TASK_PROP_WEEK_NUMBER, stringFormula "41"),
   (TASK_PROP_MONTH, stringFormula "October")]

/-- Fixture: a task with the well-formed properties. -/
def task_good : Task := Task.mk "T1" good_props

/-- Fixture: a task with the year-zero properties. -/
def task_year_zero : Task := Task.mk "T0" year_zero_props

/-- Fixture: an oracle that resolves every weekly query to page W1, every
monthly query to page M1, and accepts every patch. -/
def oracle0 : Oracle :=
  { weekly := fun _ _ => QueryOutcome.ok [ResultPage.mk "W1"],
    monthly := fun _ _ => QueryOutcome.ok [ResultPage.mk "M1"],
    patch := fun _ _ => PatchOutcome.ok }

/-- Fixture: a two-record weekly reference collection in which exactly one
record carries (title "41", year 2025). -/
def weekly_db0 : List RefRecord :=
  [RefRecord.mk "W2" "41" 2024, RefRecord.mk "W1" "41" 2025]

/-- Fixture: a two-record monthly reference collection in which exactly one
record carries (title "October", year 2025). -/
def monthly_db0 : List RefRecord :=
  [RefRecord.mk "M1" "October" 2025, RefRecord.mk "M2" "November" 2025]

/-! Helper lemmas about the field extractor. -/

theorem extract_week_some {props : List (String × PropertyValue)} {w : String}
    (h : extract_week props = some w) :
    (get_formula props TASK_PROP_WEEK_NUMBER).string.join = some w ∧ w ≠ "" := by
  unfold extract_week at h
  rcases hj : (get_formula props TASK_PROP_WEEK_NUMBER).string.join with _ | w0
  · rw [hj] at h
    exact absurd h (by simp)
  · rw [hj] at h
    by_cases he : w0.isEmpty
    · simp [he] at h
    · simp [he] at h
      subst h
      refine ⟨rfl, fun hw => ?_⟩
      rw [hw] at he
      exact he (by decide)

theorem extract_month_some {props : List (String × PropertyValue)} {m : String}
    (h : extract_month props = some m) :
    (get_formula props TASK_PROP_MONTH).string.join = some m ∧ m ≠ "" := by
  unfold extract_month at h
  rcases hj : (get_formula props TASK_PROP_MONTH).string.join with _ | m0
  · rw [hj] at h
    exact absurd h (by simp)
  · rw [hj] at h
    by_cases he : m0.isEmpty
    · simp [he] at h
    · simp [he] at h
      subst h
      refine ⟨rfl, fun hm => ?_⟩
      rw [hm] at he
      exact he (by decide)

theorem extract_of_year_none {props : List (String × PropertyValue)}
    (hy : extract_year props = none) :
    extract_task_properties props = (none, none, none) := by
  simp [extract_task_properties, hy]

theorem extract_of_week_none {props : List (String × PropertyValue)}
    (hw : extract_week props = none) :
    extract_task_properties props = (none, none, none) := by
  cases hy : extract_year props <;> simp [extract_task_properties, hy, hw]

theorem extract_of_month_none {props : List (String × PropertyValue)}
    (hm : extract_month props = none) :
    extract_task_properties props = (none, none, none) := by
  cases hy : extract_year props <;> cases hw : extract_week props <;>
    simp [extract_task_properties, hy, hw, hm]

theorem extract_triple_some {props : List (String × PropertyValue)}
    {y : Int} {w m : String}
    (h : extract_task_properties props = (some y, some w, some m)) :
    extract_year props = some y ∧ extract_week props = some w ∧
      extract_month props = some m := by
  rcases hy : extract_year props with _ | y0
  · rw [extract_of_year_none hy] at h
    exact absurd h (by simp)
  · rcases hw : extract_week props with _ | w0
    · rw [extract_of_week_none hw] at h
      exact absurd h (by simp)
    · rcases hm : extract_month props with _ | m0
      · rw [extract_of_month_none hm] at h
        exact absurd h (by simp)
      · have hall : extract_task_properties props = (some y0, some w0, some m0) := by
          simp [extract_task_properties, hy, hw, hm]
        rw [hall] at h
        obtain ⟨rfl, rfl, rfl⟩ : y0 = y ∧ w0 = w ∧ m0 = m := by simpa using h
        exact ⟨rfl, rfl, rfl⟩

theorem extract_all_some {props : List (String × PropertyValue)}
    {y : Int} {w m : String} (hy : extract_year props = some y)
    (hw : extract_week props = some w) (hm : extract_month props = some m) :
    extract_task_properties props = (some y, some w, some m) := by
  simp [extract_task_properties, hy, hw, hm]

theorem processTask_skip_of_not_truthy {o : Oracle} {task : Task}
    (h : truthyTriple (extract_task_properties task.properties) = false) :
    (processTask o task).2 = [] ∧
      ∀ a b u, (processTask o task).1 ≠ Outcome.linked a b u := by
  rcases hT : read_title task.properties with e | s
  · simp [processTask, hT]
  · rcases hX : extract_task_properties task.properties with ⟨y, w, m⟩
    rw [hX] at h
    rcases y with _ | y <;> rcases w with _ | w <;> rcases m with _ | m <;>
      simp [processTask, hT, hX, h]

/-- C5: for every task, Year extraction succeeds only when the Year
formula result has declared type "number" (whence its value — a missing
"number" key defaulting to 0 — is the extracted integer); any other
declared shape, including an absent field, makes the whole extraction
return the NotExtractable triple. -/
theorem year_extraction_number_only :
    (∀ props, (get_formula props TASK_PROP_YEAR).type ≠ some "number" →
      extract_task_properties props = (none, none, none)) ∧
    (∀ props y, extract_year props = some y →
      (get_formula props TASK_PROP_YEAR).type = some "number" ∧
        ((get_formula props TASK_PROP_YEAR).number = some (some y) ∨
          ((get_formula props TASK_PROP_YEAR).number = none ∧ y = 0))) ∧
    (∀ props y w m, extract_task_properties props = (some y, some w, some m) →
      extract_year props = some y) := by
  refine ⟨?_, ?_, ?_⟩
  · intro props h
    apply extract_of_year_none
    simp [extract_year, h]
  · intro props y h
    rw [extract_year] at h
    by_cases ht : (get_formula props TASK_PROP_YEAR).type = some "number"
    · rw [if_pos (by simp [ht])] at h
      refine ⟨ht, ?_⟩
      rcases hn : (get_formula props TASK_PROP_YEAR).number with _ | nn
      · rw [hn] at h
        simp [int_of_number_get] at h
        exact Or.inr ⟨rfl, h.symm⟩
      · rcases nn with _ | n
        · rw [hn] at h
          simp [int_of_number_get] at h
        · rw [hn] at h
          simp [int_of_number_get] at h
          exact Or.inl (by rw [h])
    · rw [if_neg (by simp [ht])] at h
      exact absurd h (by simp)
  · intro props y w m h
    exact (extract_triple_some h).1

/-- C5 witness: a string-typed year formula fails the whole extraction,
and the well-formed fixture extracts year 2025. -/
theorem year_extraction_number_only_witness :
    (get_formula year_string_props TASK_PROP_YEAR).type ≠ some "number" ∧
    extract_task_properties year_string_props = (none, none, none) ∧
    ((get_formula good_props TASK_PROP_YEAR).type = some "number" ∧
      ((get_formula good_props TASK_PROP_YEAR).number = some (some 2025) ∨
        ((get_formula good_props TASK_PROP_YEAR).number = none ∧ (2025 : Int) = 0))) ∧
    extract_year good_props = some 2025 :=
  ⟨by decide,
   year_extraction_number_only.1 year_string_props (by decide),
   year_extraction_number_only.2.1 good_props 2025 (by decide),
   year_extraction_number_only.2.2 good_props 2025 "41" "October" (by decide)⟩

/-- C1 counterexample: a numeric WeekNumber formula result of 41 is not
coerced to the text "41" — the extractor reads only the "string" key of
the formula result (src/main.py line 107), so the numeric variant fails
the whole extraction while the textual variant succeeds; the two do not
resolve identically. -/
theorem numeric_week_not_coerced :
    extract_task_properties numeric_week_props = (none, none, none) ∧
    extract_task_properties good_props = (some 2025, some "41", some "October") :=
  ⟨by decide, by decide⟩

/-- C1 amended: the Field Extractor accepts only a textual WeekNumber
formula result; a numeric result — like an empty or absent one — yields
the NotExtractable triple (no "string" key is present, and nothing is
coerced), while a non-empty textual result "41" extracts to the text
"41". -/
theorem week_extraction_text_only :
    (∀ props, (get_formula props TASK_PROP_WEEK_NUMBER).string.join = none →
      extract_task_properties props = (none, none, none)) ∧
    (∀ props, (get_formula props TASK_PROP_WEEK_NUMBER).string.join = some "" →
      extract_task_properties props = (none, none, none)) ∧
    (∀ props y w m, extract_task_properties props = (some y, some w, some m) →
      (get_formula props TASK_PROP_WEEK_NUMBER).string.join = some w ∧ w ≠ "") := by
  refine ⟨?_, ?_, ?_⟩
  · intro props h
    apply extract_of_week_none
    unfold extract_week
    rw [h]
  · intro props h
    apply extract_of_week_none
    unfold extract_week
    rw [h]
    decide
  · intro props y w m h
    exact extract_week_some (extract_triple_some h).2.1

/-- C1 amended witness: the numeric-week fixture has no textual result and
fails; the textual fixture extracts week "41". -/
theorem week_extraction_text_only_witness :
    (get_formula numeric_week_props TASK_PROP_WEEK_NUMBER).string.join = none ∧
    extract_task_properties numeric_week_props = (none, none, none) ∧
    ((get_formula good_props TASK_PROP_WEEK_NUMBER).string.join = some "41" ∧
      ("41" : String) ≠ "") :=
  ⟨by decide,
   week_extraction_text_only.1 numeric_week_props (by decide),
   week_extraction_text_only.2.2 good_props 2025 "41" "October" (by decide)⟩

/-- C4 counterexample: a number-typed Year formula evaluating to 0 does
not make extraction return the NotExtractable triple — extraction returns
(0, week, month) even though a truthy year cannot be obtained. -/
theorem year_zero_partial_extraction :
    extract_task_properties year_zero_props = (some 0, some "41", some "October") ∧
    truthyInt (some 0) = false ∧
    extract_task_properties year_zero_props ≠ (none, none, none) :=
  ⟨by decide, by decide, by decide⟩

/-- C4 amended: extraction is all-or-nothing over its own three branch
checks — it returns either the NotExtractable triple or a full triple with
non-empty week and month texts, and any branch failure (year formula not
number-typed or with a null value, week or month text empty or absent)
yields the NotExtractable triple; separately, whenever the extracted
triple fails the orchestrator's truthiness test (which a year of 0 also
fails, even though extraction then returns (0, week, month) rather than
the NotExtractable triple), the orchestrator skips the task, issuing no
resolver query and no update call. -/
theorem extraction_atomic_and_orchestrator_skip :
    (∀ props, extract_task_properties props = (none, none, none) ∨
      ∃ y w m, extract_task_properties props = (some y, some w, some m) ∧
        w ≠ "" ∧ m ≠ "") ∧
    (∀ props, (extract_year props = none ∨ extract_week props = none ∨
        extract_month props = none) →
      extract_task_properties props = (none, none, none)) ∧
    (∀ (o : Oracle) (task : Task),
      truthyTriple (extract_task_properties task.properties) = false →
        (processTask o task).2 = [] ∧
          ∀ a b u, (processTask o task).1 ≠ Outcome.linked a b u) := by
  refine ⟨?_, ?_, fun o task h => processTask_skip_of_not_truthy h⟩
  · intro props
    rcases hy : extract_year props with _ | y
    · exact Or.inl (extract_of_year_none hy)
    · rcases hw : extract_week props with _ | w
      · exact Or.inl (extract_of_week_none hw)
      · rcases hm : extract_month props with _ | m
        · exact Or.inl (extract_of_month_none hm)
        · exact Or.inr ⟨y, w, m, extract_all_some hy hw hm,
            (extract_week_some hw).2, (extract_month_some hm).2⟩
  · intro props h
    rcases h with h | h | h
    · exact extract_of_year_none h
    · exact extract_of_week_none h
    · exact extract_of_month_none h

/-- C4 amended witness: the string-typed-year fixture fails atomically,
and the year-zero fixture is skipped by the orchestrator with no request
issued. -/
theorem extraction_atomic_and_orchestrator_skip_witness :
    (extract_task_properties good_props = (none, none, none) ∨
      ∃ y w m, extract_task_properties good_props = (some y, some w, some m) ∧
        w ≠ "" ∧ m ≠ "") ∧
    extract_task_properties year_string_props = (none, none, none) ∧
    truthyTriple (extract_task_properties year_zero_props) = false ∧
    ((processTask oracle0 task_year_zero).2 = [] ∧
      ∀ a b u, (processTask oracle0 task_year_zero).1 ≠ Outcome.linked a b u) :=
  ⟨extraction_atomic_and_orchestrator_skip.1 good_props,
   extraction_atomic_and_orchestrator_skip.2.1 year_string_props (Or.inl (by decide)),
   by decide,
   extraction_atomic_and_orchestrator_skip.2.2 oracle0 task_year_zero (by decide)⟩

/-- C10: a number-typed Year formula whose value is 0 (or whose "number"
key is absent, defaulting to 0) extracts to year 0 rather than the
NotExtractable triple, yet the orchestrator's truthiness check treats 0 as
missing, so the task is skipped with no resolver query and no update
call. -/
theorem year_zero_extracted_but_skipped :
    ∀ (o : Oracle) (task : Task) (w m : String),
      (get_formula task.properties TASK_PROP_YEAR).type = some "number" →
      ((get_formula task.properties TASK_PROP_YEAR).number = some (some 0) ∨
        (get_formula task.properties TASK_PROP_YEAR).number = none) →
      extract_week task.properties = some w →
      extract_month task.properties = some m →
      extract_task_properties task.properties = (some 0, some w, some m) ∧
        (processTask o task).2 = [] ∧
        ∀ a b u, (processTask o task).1 ≠ Outcome.linked a b u := by
  intro o task w m ht hn hw hm
  have hy : extract_year task.properties = some 0 := by
    rcases hn with hn | hn <;>
      simp [extract_year, ht, hn, int_of_number_get]
  have hX : extract_task_properties task.properties = (some 0, some w, some m) :=
    extract_all_some hy hw hm
  refine ⟨hX, processTask_skip_of_not_truthy ?_⟩
  rw [hX]
  simp [truthyTriple, truthyInt]

/-- C10 witness: the year-zero fixture task is extracted to
(0, "41", "October") and skipped with no request issued. -/
theorem year_zero_extracted_but_skipped_witness :
    (get_formula task_year_zero.properties TASK_PROP_YEAR).type = some "number" ∧
    (extract_task_properties task_year_zero.properties =
        (some 0, some "41", some "October") ∧
      (processTask oracle0 task_year_zero).2 = [] ∧
      ∀ a b u, (processTask oracle0 task_year_zero).1 ≠ Outcome.linked a b u) :=
  ⟨by decide,
   year_zero_extracted_but_skipped oracle0 task_year_zero "41" "October"
     (by decide) (Or.inl (by decide)) (by decide) (by decide)⟩

/-! Helper lemmas about the relation writer. -/

theorem mem_relationEntry {p : String} {x : Option String}
    {kv : String × RelationValue} (h : kv ∈ relationEntry p x) :
    ∃ s, x = some s ∧ s ≠ "" ∧ kv = (p, RelationValue.mk [s]) := by
  rcases x with _ | s
  · simp [relationEntry] at h
  · by_cases he : s.isEmpty
    · simp [relationEntry, he] at h
    · simp [relationEntry, he] at h
      refine ⟨s, rfl, fun hs => ?_, h⟩
      rw [hs] at he
      exact he (by decide)

theorem mem_properties_to_update {w m : Option String}
    {kv : String × RelationValue} (h : kv ∈ properties_to_update w m) :
    kv.1 = TASK_PROP_WEEKLY_LINK ∨ kv.1 = TASK_PROP_MONTHLY_LINK := by
  unfold properties_to_update at h
  rcases List.mem_append.mp h with h | h
  · rcases mem_relationEntry h with ⟨s, _, _, rfl⟩
    exact Or.inl rfl
  · rcases mem_relationEntry h with ⟨s, _, _, rfl⟩
    exact Or.inr rfl

/-- C3 counterexample: a non-null but empty-string weekly identifier is
dropped by Python's truthiness test (`if weekly_page_id:`), so the payload
is empty and no update request is issued even though a non-null
identifier was resolved. -/
theorem empty_string_id_not_written :
    (some ("" : String)).isSome = true ∧
    properties_to_update (some "") none = [] ∧
    update_task_relations "T9" (some "") none PatchOutcome.ok =
      ([], UpdateResult.noUpdate) :=
  ⟨rfl, rfl, rfl⟩

/-- C3 amended: the partial-update payload contains exactly the relation
fields for which a truthy identifier — non-null and non-empty — was
resolved, each set to a single-element relation list; and if no truthy
identifier resolved (in particular when both are null), no update request
is issued at all, while a non-empty payload is sent as the one PATCH
request for the task. -/
theorem update_payload_truthy_fields :
    (∀ w m kv, kv ∈ properties_to_update w m →
      (∃ s, w = some s ∧ s ≠ "" ∧ kv = (TASK_PROP_WEEKLY_LINK, RelationValue.mk [s])) ∨
      (∃ s, m = some s ∧ s ≠ "" ∧ kv = (TASK_PROP_MONTHLY_LINK, RelationValue.mk [s]))) ∧
    (∀ w m s, w = some s → s ≠ "" →
      (TASK_PROP_WEEKLY_LINK, RelationValue.mk [s]) ∈ properties_to_update w m) ∧
    (∀ w m s, m = some s → s ≠ "" →
      (TASK_PROP_MONTHLY_LINK, RelationValue.mk [s]) ∈ properties_to_update w m) ∧
    (∀ id w m resp, properties_to_update w m = [] →
      update_task_relations id w m resp = ([], UpdateResult.noUpdate)) ∧
    (∀ id w m resp, properties_to_update w m ≠ [] →
      (update_task_relations id w m resp).1 =
        [Request.patchTask id (properties_to_update w m)]) ∧
    (∀ id resp, update_task_relations id none none resp =
      ([], UpdateResult.noUpdate)) := by
  refine ⟨?_, ?_, ?_, ?_, ?_, fun id resp => rfl⟩
  · intro w m kv h
    unfold properties_to_update at h
    rcases List.mem_append.mp h with h | h
    · exact Or.inl (mem_relationEntry h)
    · exact Or.inr (mem_relationEntry h)
  · intro w m s hw hs
    subst hw
    have he : s.isEmpty = false := by
      cases hse : s.isEmpty
      · rfl
      · exact absurd ((String.isEmpty_iff s).mp hse) hs
    simp [properties_to_update, relationEntry, he]
  · intro w m s hm hs
    subst hm
    have he : s.isEmpty = false := by
      cases hse : s.isEmpty
      · rfl
      · exact absurd ((String.isEmpty_iff s).mp hse) hs
    simp [properties_to_update, relationEntry, he]
  · intro id w m resp h
    simp [update_task_relations, h]
  · intro id w m resp h
    simp [update_task_relations, h]

/-- C3 amended witness: a weekly-only and a monthly-only payload each hold
exactly their one field, the all-null case issues no request, and a
monthly-only update issues exactly one PATCH request. -/
theorem update_payload_truthy_fields_witness :
    ((∃ s, (some "W1" : Option String) = some s ∧ s ≠ "" ∧
        ((TASK_PROP_WEEKLY_LINK : String), RelationValue.mk ["W1"]) =
          (TASK_PROP_WEEKLY_LINK, RelationValue.mk [s])) ∨
      (∃ s, (none : Option String) = some s ∧ s ≠ "" ∧
        ((TASK_PROP_WEEKLY_LINK : String), RelationValue.mk ["W1"]) =
          (TASK_PROP_MONTHLY_LINK, RelationValue.mk [s]))) ∧
    ((TASK_PROP_WEEKLY_LINK, RelationValue.mk ["W1"]) ∈
      properties_to_update (some "W1") none) ∧
    ((TASK_PROP_MONTHLY_LINK, RelationValue.mk ["M1"]) ∈
      properties_to_update none (some "M1")) ∧
    update_task_relations "T1" none none PatchOutcome.ok =
      ([], UpdateResult.noUpdate) ∧
    (update_task_relations "T1" none (some "M1") PatchOutcome.ok).1 =
      [Request.patchTask "T1" (properties_to_update none (some "M1"))] ∧
    update_task_relations "T2" none none PatchOutcome.exn =
      ([], UpdateResult.noUpdate) :=
  ⟨update_payload_truthy_fields.1 (some "W1") none
     (TASK_PROP_WEEKLY_LINK, RelationValue.mk ["W1"]) (by decide),
   update_payload_truthy_fields.2.1 (some "W1") none "W1" rfl (by decide),
   update_payload_truthy_fields.2.2.1 none (some "M1") "M1" rfl (by decide),
   update_payload_truthy_fields.2.2.2.1 "T1" none none PatchOutcome.ok rfl,
   update_payload_truthy_fields.2.2.2.2.1 "T1" none (some "M1") PatchOutcome.ok
     (by decide),
   update_payload_truthy_fields.2.2.2.2.2 "T2" PatchOutcome.exn⟩

/-- C6: Task Discovery sends the compound filter (due-date non-empty AND
weekly-relation empty AND last-edited on-or-after now − 65 minutes), and a
failed query — non-success status or transport exception — yields the
empty task list, so the whole run degrades to the discovery request alone
and processes nothing. -/
theorem discovery_filter_and_failure_noop :
    ∀ (nowMinutes : Int) (s : Nat) (o : Oracle),
      unlinked_tasks_filter nowMinutes = NotionFilter.and
        [NotionFilter.dateIsNotEmpty TASK_PROP_DUE_DATE,
         NotionFilter.relationIsEmpty TASK_PROP_WEEKLY_LINK,
         NotionFilter.lastEditedOnOrAfter (nowMinutes - 65)] ∧
      get_unlinked_tasks (QueryOutcome.httpError s) = [] ∧
      get_unlinked_tasks (QueryOutcome.exn : QueryOutcome Task) = [] ∧
      main_batch nowMinutes o (QueryOutcome.httpError s) =
        ([], [Request.queryTasks (unlinked_tasks_filter nowMinutes)]) ∧
      main_batch nowMinutes o (QueryOutcome.exn : QueryOutcome Task) =
        ([], [Request.queryTasks (unlinked_tasks_filter nowMinutes)]) :=
  fun nowMinutes s o => ⟨rfl, rfl, rfl, rfl, rfl⟩

/-- C7: for both resolvers, a query failure — non-2xx status or transport
exception — produces exactly the zero-match result NotFound (None), so a
resolution failure only leaves the corresponding relation unset. -/
theorem resolver_failure_is_not_found :
    ∀ (w mo : String) (y : Int) (s : Nat),
      find_weekly_page_with_year w y (QueryOutcome.httpError s) = none ∧
      find_weekly_page_with_year w y QueryOutcome.exn = none ∧
      find_weekly_page_with_year w y (QueryOutcome.httpError s) =
        find_weekly_page_with_year w y (QueryOutcome.ok []) ∧
      find_weekly_page_with_year w y QueryOutcome.exn =
        find_weekly_page_with_year w y (QueryOutcome.ok []) ∧
      find_monthly_page_with_year mo y (QueryOutcome.httpError s) = none ∧
      find_monthly_page_with_year mo y QueryOutcome.exn = none ∧
      find_monthly_page_with_year mo y (QueryOutcome.httpError s) =
        find_monthly_page_with_year mo y (QueryOutcome.ok []) ∧
      find_monthly_page_with_year mo y QueryOutcome.exn =
        find_monthly_page_with_year mo y (QueryOutcome.ok []) :=
  fun w mo y s => ⟨rfl, rfl, rfl, rfl, rfl, rfl, rfl, rfl⟩

/-! Helper lemmas about the resolvers against the modelled store. -/

theorem refRecordMatches_pair (tp yp : String) (r : RefRecord) (v : String)
    (n : Int) :
    refRecordMatches tp yp r
        (NotionFilter.and
          [NotionFilter.titleEquals tp v, NotionFilter.numberEquals yp n]) =
      (r.title == v && r.year == n) := by
  simp [refRecordMatches, refRecordMatchesAll]

theorem resolve_weekly_filter_eq (db : List RefRecord) (w : String) (y : Int) :
    run_ref_query WEEKLY_DB_TITLE_PROP WEEKLY_DB_YEAR_PROP db
        (weekly_query_filter w y) =
      db.filter (fun r => r.title == w && r.year == y) := by
  unfold run_ref_query
  apply List.filter_congr
  intro r _
  exact refRecordMatches_pair WEEKLY_DB_TITLE_PROP WEEKLY_DB_YEAR_PROP r w y

theorem resolve_monthly_filter_eq (db : List RefRecord) (mo : String) (y : Int) :
    run_ref_query MONTHLY_DB_TITLE_PROP MONTHLY_DB_YEAR_PROP db
        (monthly_query_filter mo y) =
      db.filter (fun r => r.title == mo && r.year == y) := by
  unfold run_ref_query
  apply List.filter_congr
  intro r _
  exact refRecordMatches_pair MONTHLY_DB_TITLE_PROP MONTHLY_DB_YEAR_PROP r mo y

/-- C2: each resolver issues the conjunction AND(title equals, year
equals); the modelled store evaluates it as exact equality on the
(title, year) pair; one or more matches return the first result's id and
zero matches return NotFound (None); hence a collection whose matching
sublist is exactly one record resolves to that record's id, and any
resolved id belongs to a record agreeing exactly in both title and year —
a record differing in title only or year only is never returned. -/
theorem resolver_filter_and_first_match :
    (∀ w y, weekly_query_filter w y = NotionFilter.and
      [NotionFilter.titleEquals WEEKLY_DB_TITLE_PROP w,
       NotionFilter.numberEquals WEEKLY_DB_YEAR_PROP y]) ∧
    (∀ mo y, monthly_query_filter mo y = NotionFilter.and
      [NotionFilter.titleEquals MONTHLY_DB_TITLE_PROP mo,
       NotionFilter.numberEquals MONTHLY_DB_YEAR_PROP y]) ∧
    (∀ (r : RefRecord) w y,
      refRecordMatches WEEKLY_DB_TITLE_PROP WEEKLY_DB_YEAR_PROP r
          (weekly_query_filter w y) = (r.title == w && r.year == y)) ∧
    (∀ (r : RefRecord) mo y,
      refRecordMatches MONTHLY_DB_TITLE_PROP MONTHLY_DB_YEAR_PROP r
          (monthly_query_filter mo y) = (r.title == mo && r.year == y)) ∧
    (∀ w y (r : ResultPage) rs,
      find_weekly_page_with_year w y (QueryOutcome.ok (r :: rs)) = some r.id) ∧
    (∀ w y, find_weekly_page_with_year w y (QueryOutcome.ok []) = none) ∧
    (∀ mo y (r : ResultPage) rs,
      find_monthly_page_with_year mo y (QueryOutcome.ok (r :: rs)) = some r.id) ∧
    (∀ mo y, find_monthly_page_with_year mo y (QueryOutcome.ok []) = none) ∧
    (∀ db w y rec, db.filter (fun r => r.title == w && r.year == y) = [rec] →
      resolve_weekly_in db w y = some rec.id) ∧
    (∀ db w y pid, resolve_weekly_in db w y = some pid →
      ∃ r, r ∈ db ∧ r.id = pid ∧ r.title = w ∧ r.year = y) ∧
    (∀ db mo y rec, db.filter (fun r => r.title == mo && r.year == y) = [rec] →
      resolve_monthly_in db mo y = some rec.id) ∧
    (∀ db mo y pid, resolve_monthly_in db mo y = some pid →
      ∃ r, r ∈ db ∧ r.id = pid ∧ r.title = mo ∧ r.year = y) := by
  refine ⟨fun w y => rfl, fun mo y => rfl,
    fun r w y => refRecordMatches_pair _ _ r w y,
    fun r mo y => refRecordMatches_pair _ _ r mo y,
    fun w y r rs => rfl, fun w y => rfl, fun mo y r rs => rfl, fun mo y => rfl,
    ?_, ?_, ?_, ?_⟩
  · intro db w y rec h
    unfold resolve_weekly_in
    rw [resolve_weekly_filter_eq, h]
    rfl
  · intro db w y pid h
    unfold resolve_weekly_in at h
    rw [resolve_weekly_filter_eq] at h
    rcases hq : db.filter (fun r => r.title == w && r.year == y) with _ | ⟨r, rs⟩
    · rw [hq] at h
      exact absurd h (by simp [find_weekly_page_with_year])
    · rw [hq] at h
      have hid : r.id = pid := by
        simpa [find_weekly_page_with_year, RefRecord.toPage] using h
      have hm : r ∈ db.filter (fun r => r.title == w && r.year == y) := by
        rw [hq]
        exact List.mem_cons_self r rs
      have hmf := List.mem_filter.mp hm
      have hb : r.title = w ∧ r.year = y := by simpa using hmf.2
      exact ⟨r, hmf.1, hid, hb.1, hb.2⟩
  · intro db mo y rec h
    unfold resolve_monthly_in
    rw [resolve_monthly_filter_eq, h]
    rfl
  · intro db mo y pid h
    unfold resolve_monthly_in at h
    rw [resolve_monthly_filter_eq] at h
    rcases hq : db.filter (fun r => r.title == mo && r.year == y) with _ | ⟨r, rs⟩
    · rw [hq] at h
      exact absurd h (by simp [find_monthly_page_with_year])
    · rw [hq] at h
      have hid : r.id = pid := by
        simpa [find_monthly_page_with_year, RefRecord.toPage] using h
      have hm : r ∈ db.filter (fun r => r.title == mo && r.year == y) := by
        rw [hq]
        exact List.mem_cons_self r rs
      have hmf := List.mem_filter.mp hm
      have hb : r.title = mo ∧ r.year = y := by simpa using hmf.2
      exact ⟨r, hmf.1, hid, hb.1, hb.2⟩

/-- C2 witness: in the two-record fixtures, ("41", 2025) resolves to W1
and ("October", 2025) to M1, and each resolved id is certified to come
from the record agreeing in both title and year. -/
theorem resolver_filter_and_first_match_witness :
    weekly_db0.filter (fun r => r.title == "41" && r.year == (2025 : Int)) =
      [RefRecord.mk "W1" "41" 2025] ∧
    resolve_weekly_in weekly_db0 "41" 2025 = some (RefRecord.mk "W1" "41" 2025).id ∧
    (∃ r, r ∈ weekly_db0 ∧ r.id = "W1" ∧ r.title = "41" ∧ r.year = (2025 : Int)) ∧
    monthly_db0.filter (fun r => r.title == "October" && r.year == (2025 : Int)) =
      [RefRecord.mk "M1" "October" 2025] ∧
    resolve_monthly_in monthly_db0 "October" 2025 =
      some (RefRecord.mk "M1" "October" 2025).id ∧
    (∃ r, r ∈ monthly_db0 ∧ r.id = "M1" ∧ r.title = "October" ∧
      r.year = (2025 : Int)) :=
  ⟨by decide,
   resolver_filter_and_first_match.2.2.2.2.2.2.2.2.1 weekly_db0 "41" 2025
     (RefRecord.mk "W1" "41" 2025) (by decide),
   resolver_filter_and_first_match.2.2.2.2.2.2.2.2.2.1 weekly_db0 "41" 2025
     "W1" (by decide),
   by decide,
   resolver_filter_and_first_match.2.2.2.2.2.2.2.2.2.2.1 monthly_db0 "October"
     2025 (RefRecord.mk "M1" "October" 2025) (by decide),
   resolver_filter_and_first_match.2.2.2.2.2.2.2.2.2.2.2 monthly_db0 "October"
     2025 "M1" (by decide)⟩

/-! Helper lemmas about the request traces of the batch. -/

theorem update_reqs_patch {id : String} {w m : Option String}
    {resp : PatchOutcome} {req : Request}
    (h : req ∈ (update_task_relations id w m resp).1) :
    req = Request.patchTask id (properties_to_update w m) := by
  unfold update_task_relations at h
  by_cases he : properties_to_update w m = []
  · simp [he] at h
  · simp [he] at h
    exact h

theorem processTask_patch_shape {o : Oracle} {t : Task} {req : Request}
    (h : req ∈ (processTask o t).2) :
    ∀ id ps, req = Request.patchTask id ps →
      ∃ w m, ps = properties_to_update w m := by
  intro id ps hreq
  subst hreq
  rcases hT : read_title t.properties with e | s
  · simp [processTask, hT] at h
  · rcases hX : extract_task_properties t.properties with ⟨y, w, m⟩
    rcases y with _ | y <;> rcases w with _ | w <;> rcases m with _ | m <;>
      simp [processTask, hT, hX] at h
    by_cases hc : truthyTriple (some y, some w, some m) = true
    · rw [if_pos hc] at h
      simp only [linkStep, List.mem_cons] at h
      rcases h with h | h | h
      · exact absurd h (by simp)
      · exact absurd h (by simp)
      · have h2 := update_reqs_patch h
        injection h2 with hid hps
        exact ⟨_, _, hps⟩
    · rw [if_neg hc] at h
      simp at h

theorem main_batch_req {now : Int} {o : Oracle} {resp : QueryOutcome Task}
    {req : Request} (h : req ∈ (main_batch now o resp).2) :
    req = Request.queryTasks (unlinked_tasks_filter now) ∨
      ∃ t, t ∈ get_unlinked_tasks resp ∧ req ∈ (processTask o t).2 := by
  simp only [main_batch, List.mem_cons] at h
  rcases h with h | h
  · exact Or.inl h
  · rcases List.mem_flatten.mp h with ⟨l, hl, hreq⟩
    rcases List.mem_map.mp hl with ⟨t, ht, rfl⟩
    exact Or.inr ⟨t, ht, hreq⟩

theorem lookup_eq_none_of_keys {ps : List (String × RelationValue)}
    {name : String}
    (hk : ∀ kv ∈ ps, kv.1 = TASK_PROP_WEEKLY_LINK ∨ kv.1 = TASK_PROP_MONTHLY_LINK)
    (h1 : name ≠ TASK_PROP_WEEKLY_LINK) (h2 : name ≠ TASK_PROP_MONTHLY_LINK) :
    ps.lookup name = none := by
  induction ps with
  | nil => rfl
  | cons kv tl ih =>
    rcases kv with ⟨k, v⟩
    have hk1 : k = TASK_PROP_WEEKLY_LINK ∨ k = TASK_PROP_MONTHLY_LINK := by
      simpa using hk (k, v) (List.mem_cons_self _ tl)
    have hne : (name == k) = false := by
      rcases hk1 with rfl | rfl
      · exact beq_eq_false_iff_ne.mpr h1
      · exact beq_eq_false_iff_ne.mpr h2
    have htl : List.lookup name tl = none :=
      ih (fun kv hkv => hk kv (List.mem_cons_of_mem _ hkv))
    show List.lookup name ((k, v) :: tl) = none
    simp only [List.lookup, hne]
    exact htl

theorem apply_update_frame {ps : List (String × RelationValue)}
    {record : String → Option RelationValue} {name : String}
    (hk : ∀ kv ∈ ps, kv.1 = TASK_PROP_WEEKLY_LINK ∨ kv.1 = TASK_PROP_MONTHLY_LINK)
    (h1 : name ≠ TASK_PROP_WEEKLY_LINK) (h2 : name ≠ TASK_PROP_MONTHLY_LINK) :
    apply_update ps record name = record name := by
  unfold apply_update
  rw [lookup_eq_none_of_keys hk h1 h2]

/-- C8: every request the batch issues is one of the three collection
queries (reads) or a single-page PATCH, and every PATCH payload names only
the weekly-link and monthly-link relation properties, so applying it under
the store's partial-update semantics leaves every other property of the
record unchanged; no request creates or deletes a record (the `Request`
type enumerates every call the script makes). -/
theorem patch_touches_only_relation_fields :
    ∀ (now : Int) (o : Oracle) (resp : QueryOutcome Task) (req : Request),
      req ∈ (main_batch now o resp).2 →
      ∀ id ps, req = Request.patchTask id ps →
        (∀ kv ∈ ps, kv.1 = TASK_PROP_WEEKLY_LINK ∨ kv.1 = TASK_PROP_MONTHLY_LINK) ∧
        (∀ (record : String → Option RelationValue) (name : String),
          name ≠ TASK_PROP_WEEKLY_LINK → name ≠ TASK_PROP_MONTHLY_LINK →
          apply_update ps record name = record name) := by
  intro now o resp req hmem id ps hreq
  have hk : ∀ kv ∈ ps,
      kv.1 = TASK_PROP_WEEKLY_LINK ∨ kv.1 = TASK_PROP_MONTHLY_LINK := by
    rcases main_batch_req hmem with h | ⟨t, _, hq⟩
    · rw [hreq] at h
      exact absurd h (by simp)
    · rcases processTask_patch_shape hq id ps hreq with ⟨w, m, rfl⟩
      exact fun kv hkv => mem_properties_to_update hkv
  exact ⟨hk, fun record name h1 h2 => apply_update_frame hk h1 h2⟩

/-- C8 witness: in a concrete full run that issues a PATCH for both
relations, the payload names only the two relation properties and leaves
any other property of any record untouched. -/
theorem patch_touches_only_relation_fields_witness :
    (∀ kv ∈ [(TASK_PROP_WEEKLY_LINK, RelationValue.mk ["W1"]),
             (TASK_PROP_MONTHLY_LINK, RelationValue.mk ["M1"])],
      kv.1 = TASK_PROP_WEEKLY_LINK ∨ kv.1 = TASK_PROP_MONTHLY_LINK) ∧
    (∀ (record : String → Option RelationValue) (name : String),
      name ≠ TASK_PROP_WEEKLY_LINK → name ≠ TASK_PROP_MONTHLY_LINK →
      apply_update [(TASK_PROP_WEEKLY_LINK, RelationValue.mk ["W1"]),
                    (TASK_PROP_MONTHLY_LINK, RelationValue.mk ["M1"])]
          record name = record name) :=
  patch_touches_only_relation_fields 100 oracle0 (QueryOutcome.ok [task_good])
    (Request.patchTask "T1"
      [(TASK_PROP_WEEKLY_LINK, RelationValue.mk ["W1"]),
       (TASK_PROP_MONTHLY_LINK, RelationValue.mk ["M1"])])
    (by
      have h : (main_batch 100 oracle0 (QueryOutcome.ok [task_good])).2 =
          [Request.queryTasks (unlinked_tasks_filter 100),
           Request.queryWeekly (weekly_query_filter "41" 2025),
           Request.queryMonthly (monthly_query_filter "October" 2025),
           Request.patchTask "T1"
             [(TASK_PROP_WEEKLY_LINK, RelationValue.mk ["W1"]),
              (TASK_PROP_MONTHLY_LINK, RelationValue.mk ["M1"])]] := rfl
      rw [h]
      simp)
    "T1" _ rfl

/-- C9: the batch loop completes with exactly one outcome per discovered
task, and the i-th outcome is a function of the i-th task alone (given the
store's responses), so no task's processing affects any other's; every
per-task failure mode (title KeyError, extraction failure, resolver or
update failure) is a value of `Outcome`, never an escaping exception —
`processTask` is total. -/
theorem batch_loop_isolation :
    ∀ (o : Oracle) (tasks : List Task),
      (main_outcomes o tasks).length = tasks.length ∧
      ∀ (i : Nat) (h : i < tasks.length),
        (main_outcomes o tasks).get ⟨i, by simpa [main_outcomes] using h⟩ =
          (processTask o (tasks.get ⟨i, h⟩)).1 := by
  intro o tasks
  refine ⟨by simp [main_outcomes], ?_⟩
  intro i h
  simp [main_outcomes]

/-- C9 witness: a two-task batch (one linkable, one skipped) yields two
outcomes, each equal to its own task's processing result. -/
theorem batch_loop_isolation_witness :
    (main_outcomes oracle0 [task_good, task_year_zero]).length =
      [task_good, task_year_zero].length ∧
    (main_outcomes oracle0 [task_good, task_year_zero]).get
        ⟨0, by simp [main_outcomes]⟩ =
      (processTask oracle0 ([task_good, task_year_zero].get ⟨0, by simp⟩)).1 ∧
    (main_outcomes oracle0 [task_good, task_year_zero]).get
        ⟨1, by simp [main_outcomes]⟩ =
      (processTask oracle0 ([task_good, task_year_zero].get ⟨1, by simp⟩)).1 :=
  ⟨(batch_loop_isolation oracle0 [task_good, task_year_zero]).1,
   (batch_loop_isolation oracle0 [task_good, task_year_zero]).2 0 (by simp),
   (batch_loop_isolation oracle0 [task_good, task_year_zero]).2 1 (by simp)⟩

end NotionTracker
